import Mathlib

/-!
Shallow embedding of the LPPS locomotive risk/performance prediction engine
(`app/loco_ml_service.py`, `app/models/locomotive.py`, and the bulk-prediction
helpers in `app/routes/loco_predictions.py`).

Conventions of the embedding:
* Python floats are modelled as exact rationals (`Rat`); the decimal literals
  of the source (`0.6`, `1.5`, ...) are taken at their decimal value.
* Dates are modelled as absolute day numbers (`Int`); `date.today()`,
  `datetime.now().year` and `datetime.now().month` are ambient inputs
  gathered in a `Clock` record.
* Python `int(x)` is truncation toward zero (`pyInt`); Python `round(x, 2)`
  is round-half-to-even on hundredths (`round2`).
* The opaque pickled artifacts (scaler, two models, three encoders) cannot be
  embedded; their per-call outcome is an explicit `MLEnv` input:
  `models_loaded` mirrors the load-once flag, `features_ok` mirrors
  `_prepare_locomotive_features` returning non-`None` (the encoders are the
  only failure point there), and `ml_outcome = none` models an exception
  raised during scaling or inference, while `some (raw, cat)` carries the raw
  risk-regressor output and the decoded reliability category.
* Python dicts keyed by metric name become association lists in insertion
  order.
-/

namespace LPPS

/-- Truncation toward zero of a rational, as Python `int(x)` on a float. -/
def pyInt (q : Rat) : Int := q.num / (q.den : Int)

/-- Round-half-to-even to the nearest integer, as Python `round(x)`. -/
def pyRound (q : Rat) : Int :=
  let f := ⌊q⌋
  let frac := q - (f : Rat)
  if frac < 1/2 then f
  else if 1/2 < frac then f + 1
  else if f % 2 = 0 then f else f + 1

/-- Python `round(x, 2)`: round-half-to-even on hundredths. -/
def round2 (q : Rat) : Rat := (pyRound (q * 100) : Rat) / 100

/-- Python `dict.get(k, d)` on an association list. -/
def dictGet (m : List (String × Rat)) (k : String) (d : Rat) : Rat :=
  match m.find? (fun p => p.1 == k) with
  | some p => p.2
  | none => d

/-- The keys of an association list, in insertion order. -/
def keysOf (m : List (String × Rat)) : List String := m.map Prod.fst

/-- Ambient time: `datetime.now().year`, `datetime.now().month` and
`date.today()` (the latter as an absolute day number). -/
structure Clock where
  currentYear : Int
  currentMonth : Int
  today : Int

/-- A locomotive snapshot (`app/models/locomotive.py`).  `last_maintenance`
is an absolute day number when a last-maintenance date exists. -/
structure Locomotive where
  model : String
  manufacturing_year : Int
  operating_hours : Int
  last_maintenance : Option Int
  current_status : String
  fleet : String

/-- `Locomotive.age`: `datetime.now().year - self.manufacturing_year`. -/
def Locomotive.age (l : Locomotive) (c : Clock) : Int :=
  c.currentYear - l.manufacturing_year

/-- Days since the last maintenance: `(date.today() - self.last_maintenance).days`. -/
def daysSince (c : Clock) (d : Int) : Int := c.today - d

/-- `Locomotive.calculate_risk_score` (source lines 60–74). -/
def calculate_risk_score (c : Clock) (l : Locomotive) : Rat :=
  let age_risk := min 50 ((l.age c : Rat) * 2)
  let usage_risk := min 30 (((l.operating_hours : Rat) / 1000) * 0.6)
  let maintenance_risk : Rat :=
    match l.last_maintenance with
    | some d => min 20 ((daysSince c d : Rat) * 0.2)
    | none => 20
  let total_risk := age_risk + usage_risk + maintenance_risk
  min 100 total_risk

/-- `Locomotive.get_risk_level` (source lines 76–84). -/
def get_risk_level (c : Clock) (l : Locomotive) : String :=
  let score := calculate_risk_score c l
  if score ≥ 70 then "High"
  else if score ≥ 40 then "Medium"
  else "Low"

/-- `Locomotive.calculate_reliability` (source lines 86–115). -/
def calculate_reliability (c : Clock) (l : Locomotive) : Rat :=
  let r1 : Rat := 100
  let age_factor := min 30 ((l.age c : Rat) * 1.5)
  let r2 := r1 - age_factor
  let usage_factor := min 20 (((l.operating_hours : Rat) / 10000) * 2)
  let r3 := r2 - usage_factor
  let r4 :=
    match l.last_maintenance with
    | some d =>
        if daysSince c d > 90 then
          r3 - min 15 (((daysSince c d : Rat) - 90) * 0.1)
        else r3
    | none => r3 - 15
  let r5 :=
    if l.current_status == "repair" then r4 - 25
    else if l.current_status == "maintenance" then r4 - 10
    else r4
  max 0 (min 100 r5)

/-- A structured maintenance recommendation item. -/
structure MaintItem where
  itemType : String
  priority : String
  description : String
deriving DecidableEq

/-- `Locomotive.get_maintenance_recommendations` (source lines 117–150). -/
def get_maintenance_recommendations (c : Clock) (l : Locomotive) : List MaintItem :=
  let score := calculate_risk_score c l
  (if l.age c > 20 then
    [⟨"Engine Overhaul", if l.age c > 25 then "High" else "Medium",
      "Consider major engine overhaul due to age"⟩]
   else [])
  ++ (if l.operating_hours > 50000 then
    [⟨"Transmission Service", "High", "Transmission requires major service"⟩]
   else [])
  ++ (if (match l.last_maintenance with
          | none => true
          | some d => daysSince c d > 90) then
    [⟨"Routine Maintenance", "High", "Overdue for routine maintenance"⟩]
   else [])
  ++ (if score > 60 then
    [⟨"Comprehensive Inspection", "High", "Full system inspection recommended"⟩]
   else [])

/-- The risk-score formula written from the words of the spec (§4.4):
`min(100, age_risk + usage_risk + maintenance_risk)` with
`age_risk = min(50, age*2)`, `usage_risk = min(30, operating_hours/1000*0.6)`,
`maintenance_risk = min(20, days_since_maintenance*0.2)` when a
last-maintenance date exists, else the fixed penalty `20`. -/
def risk_score_spec (c : Clock) (l : Locomotive) : Rat :=
  min 100
    (min 50 ((l.age c : Rat) * 2)
     + min 30 (((l.operating_hours : Rat) / 1000) * 0.6)
     + (match l.last_maintenance with
        | some d => min 20 (((c.today - d : Int) : Rat) * 0.2)
        | none => 20))

/-- The risk-level thresholds written from the words of the spec:
score ≥ 70 is High, ≥ 40 is Medium, otherwise Low. -/
def risk_level_spec (c : Clock) (l : Locomotive) : String :=
  if risk_score_spec c l ≥ 70 then "High"
  else if risk_score_spec c l ≥ 40 then "Medium"
  else "Low"

/-! ### Feature deriver (`_prepare_locomotive_features`, lines 50–135)

The three categorical encoders are opaque pickled artifacts; their success is
carried by `MLEnv.features_ok` below.  The numeric features and the two
category labels are embedded here. -/

/-- The numeric feature set derived by `_prepare_locomotive_features`. -/
structure Features where
  loco_type : Int
  year : Int
  availability_days : Rat
  distance_travelled : Rat
  distance_per_day : Rat
  total_failures : Rat
  reliability : Rat
  failure_rate : Rat
  age : Int
  usage_intensity : Rat
  maintenance_frequency : Rat
  fuel_efficiency : Rat
  operating_hours : Int
  efficiency_score : Rat
  maintenance_score : Rat
  reliability_category : String
  age_category : String
  failure_rate_per_hour : Rat
  distance_per_hour : Rat
  availability_rate : Rat

/-- Denominator of `failure_rate`: `max(1, operating_hours / 1000)`. -/
def failure_rate_denom (l : Locomotive) : Rat :=
  max 1 ((l.operating_hours : Rat) / 1000)

/-- Denominator of `usage_intensity`: `max(1, age * 365 * 24)`. -/
def usage_intensity_denom (c : Clock) (l : Locomotive) : Rat :=
  max 1 ((l.age c : Rat) * 365 * 24)

/-- Denominator of the per-hour features: `max(1, operating_hours)`. -/
def per_hour_denom (l : Locomotive) : Rat :=
  max 1 (l.operating_hours : Rat)

/-- `_prepare_locomotive_features` (numeric part). -/
def prepare_locomotive_features (c : Clock) (l : Locomotive) : Features :=
  let loco_type : Int := if l.model == "DE10" then 1 else 2
  let age := l.age c
  let operating_hours := l.operating_hours
  let availability_days : Rat := max 300 (365 - (age : Rat) * 5)
  let distance_travelled : Rat := (operating_hours : Rat) * 50
  let distance_per_day : Rat :=
    if availability_days > 0 then distance_travelled / 365 else 0
  let total_failures : Rat :=
    max 0 ((age : Rat) * 2 + (operating_hours : Rat) / 10000)
  let reliability : Rat :=
    max 60 (95 - (age : Rat) * 2 - total_failures * 5)
  let failure_rate := total_failures / failure_rate_denom l
  let usage_intensity := (operating_hours : Rat) / usage_intensity_denom c l
  let maintenance_frequency : Rat := max 2 ((age : Rat) * 0.5)
  let fuel_efficiency : Rat := max 70 (90 - (age : Rat) * 1.5)
  let efficiency_score := (reliability + fuel_efficiency) / 2
  let maintenance_score : Rat := max 60 (100 - maintenance_frequency * 10)
  let reliability_category :=
    if reliability ≥ 90 then "High"
    else if reliability ≥ 75 then "Medium"
    else if reliability ≥ 60 then "Low"
    else "Critical"
  let age_category :=
    if age ≤ 5 then "New"
    else if age ≤ 10 then "Young"
    else if age ≤ 20 then "Mature"
    else "Old"
  let failure_rate_per_hour := total_failures / per_hour_denom l
  let distance_per_hour := distance_travelled / per_hour_denom l
  let availability_rate := availability_days / 365
  { loco_type := loco_type
    year := c.currentYear
    availability_days := availability_days
    distance_travelled := distance_travelled
    distance_per_day := distance_per_day
    total_failures := total_failures
    reliability := reliability
    failure_rate := failure_rate
    age := age
    usage_intensity := usage_intensity
    maintenance_frequency := maintenance_frequency
    fuel_efficiency := fuel_efficiency
    operating_hours := operating_hours
    efficiency_score := efficiency_score
    maintenance_score := maintenance_score
    reliability_category := reliability_category
    age_category := age_category
    failure_rate_per_hour := failure_rate_per_hour
    distance_per_hour := distance_per_hour
    availability_rate := availability_rate }

/-! ### Prediction synthesizer (`_generate_specific_predictions`, lines 201–251) -/

/-- `_generate_specific_predictions`: the metric map, in insertion order.
The `period_days` argument is accepted and unused, as in the source. -/
def generate_specific_predictions (c : Clock) (l : Locomotive)
    (prediction_type : String) (period_days : Int) (risk_score : Rat) :
    List (String × Rat) :=
  let _ := period_days
  let age := (l.age c : Rat)
  let operating_hours := (l.operating_hours : Rat)
  (if prediction_type == "all" || prediction_type == "availability_days" then
    let base_availability := max 250 (365 - age * 8)
    let risk_factor := 1 - risk_score / 200
    let predicted_availability := pyInt (base_availability * risk_factor)
    [("availability_days", ((max 0 predicted_availability : Int) : Rat))]
   else [])
  ++ (if prediction_type == "all" || prediction_type == "distance_travelled" then
    let base_distance := operating_hours * 45
    let risk_factor := 1 - risk_score / 300
    let predicted_distance := pyInt (base_distance * risk_factor)
    [("distance_travelled", ((max 0 predicted_distance : Int) : Rat))]
   else [])
  ++ (if prediction_type == "all" || prediction_type == "distance_per_day" then
    let base_daily_distance : Rat := 120
    let risk_factor := 1 - risk_score / 200
    let predicted_daily_distance := round2 (base_daily_distance * risk_factor)
    [("distance_per_day", max 0 predicted_daily_distance)]
   else [])
  ++ (if prediction_type == "all" || prediction_type == "total_failures" then
    let base_failure_rate := age * 0.5 + operating_hours / 15000
    let risk_factor := 1 + risk_score / 100
    let predicted_failures := pyInt (base_failure_rate * risk_factor)
    [("total_failures", ((max 0 predicted_failures : Int) : Rat))]
   else [])
  ++ (if prediction_type == "all" || prediction_type == "reliability" then
    let base_reliability := max 50 (95 - age * 2.5)
    let risk_factor := 1 - risk_score / 150
    let predicted_reliability := round2 (base_reliability * risk_factor)
    [("reliability", max 0 (min 100 predicted_reliability))]
   else [])
  ++ (if prediction_type == "all" || prediction_type == "fuel_efficiency" then
    let base_efficiency := max 60 (90 - age * 1.8)
    let risk_factor := 1 - risk_score / 200
    let predicted_efficiency := round2 (base_efficiency * risk_factor)
    [("fuel_efficiency", max 0 (min 100 predicted_efficiency))]
   else [])

/-! ### Per-metric recommendation helpers (lines 293–413) -/

/-- `_get_availability_recommendations`. -/
def get_availability_recommendations (risk_level : String) (age : Int)
    (hours : Int) : List String :=
  let _ := hours
  (if risk_level == "High" then
    ["📉 LOW AVAILABILITY EXPECTED: Schedule extended maintenance downtime to improve reliability.",
     "🛠️ Multiple system checks required. Consider component replacement."]
   else if risk_level == "Medium" then
    ["📊 MODERATE AVAILABILITY: Plan maintenance during low-demand periods.",
     "🔍 Increase inspection frequency to prevent unexpected downtime."]
   else
    ["📈 HIGH AVAILABILITY EXPECTED: Continue current maintenance schedule.",
     "✅ Suitable for continuous operations and high-demand periods."])
  ++ (if age > 20 then
    ["⏰ AGED LOCOMOTIVE: Plan for increased maintenance windows due to age."]
   else [])

/-- `_get_distance_recommendations`. -/
def get_distance_recommendations (risk_level : String) (age : Int)
    (hours : Int) : List String :=
  let _ := age
  (if risk_level == "High" then
    ["🛤️ LIMITED DISTANCE CAPABILITY: Avoid long-distance routes (>500km).",
     "📉 Reduced operational range expected. Plan for shorter routes."]
   else if risk_level == "Medium" then
    ["🛤️ MODERATE DISTANCE CAPABILITY: Suitable for medium-distance routes (200-500km).",
     "📊 Monitor fuel consumption and system performance on longer routes."]
   else
    ["🛤️ HIGH DISTANCE CAPABILITY: Suitable for long-distance operations.",
     "✅ Can handle extended routes and heavy freight operations."])
  ++ (if hours > 50000 then
    ["⏱️ HIGH USAGE: Consider route planning to minimize wear on high-mileage components."]
   else [])

/-- `_get_daily_distance_recommendations`. -/
def get_daily_distance_recommendations (risk_level : String) (age : Int)
    (hours : Int) : List String :=
  let _ := hours
  (if risk_level == "High" then
    ["📉 LOW DAILY DISTANCE: Limit to short-haul operations (<200km/day).",
     "🛠️ System performance issues affecting daily range. Schedule diagnostics."]
   else if risk_level == "Medium" then
    ["📊 MODERATE DAILY DISTANCE: Suitable for medium-haul operations (200-400km/day).",
     "🔍 Monitor daily performance metrics and fuel consumption."]
   else
    ["📈 HIGH DAILY DISTANCE: Capable of long-haul operations (>400km/day).",
     "✅ Optimal for high-intensity daily operations."])
  ++ (if age > 20 then
    ["⏰ AGED LOCOMOTIVE: Daily distance may be limited by component wear."]
   else [])

/-- `_get_failure_recommendations`. -/
def get_failure_recommendations (risk_level : String) (age : Int)
    (hours : Int) : List String :=
  (if risk_level == "High" then
    ["⚠️ HIGH FAILURE RISK: Schedule comprehensive maintenance before operations.",
     "🚫 Avoid critical routes. Have backup locomotive ready."]
   else if risk_level == "Medium" then
    ["📊 MODERATE FAILURE RISK: Increase monitoring frequency during operations.",
     "🛠️ Schedule preventive maintenance to reduce failure probability."]
   else
    ["✅ LOW FAILURE RISK: Continue current maintenance practices.",
     "📈 Suitable for critical and time-sensitive operations."])
  ++ (if age > 20 then
    ["🔧 AGED LOCOMOTIVE: Higher failure risk due to component aging."]
   else [])
  ++ (if hours > 50000 then
    ["⏱️ HIGH USAGE: Component fatigue may increase failure probability."]
   else [])

/-- `_get_reliability_recommendations`. -/
def get_reliability_recommendations (risk_level : String)
    (reliability_category : String) (age : Int) (hours : Int) : List String :=
  let _ := risk_level
  let _ := hours
  (if reliability_category == "Critical" then
    ["🔴 CRITICAL RELIABILITY: Do not assign to critical routes or time-sensitive operations.",
     "🛠️ Schedule comprehensive diagnostic check. Multiple systems need attention."]
   else if reliability_category == "Low" then
    ["🟡 LOW RELIABILITY: Suitable for non-critical operations with backup plans.",
     "📋 Increase monitoring frequency. Prepare contingency plans."]
   else
    ["✅ HIGH RELIABILITY: Suitable for all types of operations.",
     "🚂 Optimal for critical routes and time-sensitive deliveries."])
  ++ (if age > 20 then
    ["⏰ AGED LOCOMOTIVE: Reliability may decrease due to component aging."]
   else [])

/-- `_get_fuel_efficiency_recommendations` (the seasonal tail reads the
current calendar month). -/
def get_fuel_efficiency_recommendations (c : Clock) (risk_level : String)
    (age : Int) (hours : Int) : List String :=
  let _ := risk_level
  (if age > 20 && hours > 50000 then
    ["⛽ POOR FUEL EFFICIENCY: Check engine tuning, air filters, and fuel injection systems.",
     "🚫 Avoid this locomotive for fuel-sensitive operations. Consider engine overhaul."]
   else if age > 15 || hours > 40000 then
    ["⛽ MODERATE FUEL EFFICIENCY: Schedule engine tune-up and filter replacement.",
     "📈 Monitor fuel consumption closely. Consider driver training for fuel-efficient operation."]
   else
    ["⛽ GOOD FUEL EFFICIENCY: Continue current maintenance practices to maintain efficiency.",
     "✅ Suitable for fuel-sensitive operations and long-distance routes."])
  ++ (if c.currentMonth == 12 || c.currentMonth == 1 || c.currentMonth == 2 then
    ["❄️ WINTER: Cold weather reduces fuel efficiency. Plan for increased consumption."]
   else if c.currentMonth == 6 || c.currentMonth == 7 || c.currentMonth == 8 then
    ["☀️ SUMMER: High temperatures may reduce fuel efficiency. Monitor cooling systems."]
   else [])

/-! ### ML-path recommendation generator (`_generate_recommendations`, lines 253–291) -/

/-- The single basic risk statement always appended first. -/
def ml_basic_rec (risk_level : String) : String :=
  if risk_level == "High" then
    "🚨 URGENT: High risk detected. Schedule immediate inspection before operations."
  else if risk_level == "Medium" then
    "📅 Medium risk level. Monitor performance closely during operations."
  else
    "✅ Low risk level. Locomotive is in good operational condition."

/-- `_generate_recommendations`: basic statement, per-type dispatch, the
single-element top-up, and truncation to six. The `risk_score` argument is
accepted and unused, as in the source. -/
def generate_recommendations (c : Clock) (l : Locomotive) (risk_score : Rat)
    (risk_level : String) (reliability_category : String)
    (prediction_type : String) : List String :=
  let _ := risk_score
  let age := l.age c
  let hours := l.operating_hours
  let recs := [ml_basic_rec risk_level]
    ++ (if prediction_type == "availability_days" then
          get_availability_recommendations risk_level age hours
        else if prediction_type == "distance_travelled" then
          get_distance_recommendations risk_level age hours
        else if prediction_type == "distance_per_day" then
          get_daily_distance_recommendations risk_level age hours
        else if prediction_type == "total_failures" then
          get_failure_recommendations risk_level age hours
        else if prediction_type == "reliability" then
          get_reliability_recommendations risk_level reliability_category age hours
        else if prediction_type == "fuel_efficiency" then
          get_fuel_efficiency_recommendations c risk_level age hours
        else if prediction_type == "all" then
          (get_availability_recommendations risk_level age hours).take 1
          ++ (get_daily_distance_recommendations risk_level age hours).take 1
          ++ (get_fuel_efficiency_recommendations c risk_level age hours).take 1
          ++ (get_failure_recommendations risk_level age hours).take 1
        else [])
  let recs := if recs.length == 1 then
      recs ++ ["✅ Continue regular maintenance and monitoring"]
    else recs
  recs.take 6

/-! ### Fallback predictor (`_fallback_prediction`, lines 415–515) -/

/-- The metric map built by `_fallback_prediction` (lines 421–441). -/
def fallback_predictions (c : Clock) (l : Locomotive)
    (prediction_type : String) (period_days : Int) : List (String × Rat) :=
  let age := l.age c
  let operating_hours := l.operating_hours
  (if prediction_type == "all" || prediction_type == "availability_days" then
    [("availability_days", ((max 200 (365 - age * 10) : Int) : Rat))]
   else [])
  ++ (if prediction_type == "all" || prediction_type == "distance_travelled" then
    [("distance_travelled",
      ((pyInt ((operating_hours : Rat) * 40 * ((period_days : Rat) / 365)) : Int) : Rat))]
   else [])
  ++ (if prediction_type == "all" || prediction_type == "distance_per_day" then
    [("distance_per_day", round2 (100 - (age : Rat) * 2))]
   else [])
  ++ (if prediction_type == "all" || prediction_type == "total_failures" then
    [("total_failures", ((max 0 (pyInt ((age : Rat) * 1.5)) : Int) : Rat))]
   else [])
  ++ (if prediction_type == "all" || prediction_type == "reliability" then
    [("reliability", ((max 50 (95 - age * 3) : Int) : Rat))]
   else [])
  ++ (if prediction_type == "all" || prediction_type == "fuel_efficiency" then
    [("fuel_efficiency", ((max 60 (90 - age * 2) : Int) : Rat))]
   else [])

/-- Fallback risk-level statements (lines 447–455): always two. -/
def fb_risk_recs (risk_level : String) : List String :=
  if risk_level == "High" then
    ["🚨 URGENT: Do not use this locomotive for heavy operations. Schedule immediate comprehensive inspection and maintenance before next deployment.",
     "⚠️ Avoid long-distance routes (>500km) until risk assessment improves. Consider short-haul operations only."]
  else if risk_level == "Medium" then
    ["📅 Schedule preventive maintenance within 2 weeks. Monitor performance closely during operations.",
     "🛤️ Suitable for medium-distance routes (200-500km). Avoid extreme weather conditions."]
  else
    ["✅ Locomotive is in good condition. Continue current maintenance schedule and regular operations.",
     "🚂 Suitable for all types of operations including long-distance and heavy freight."]

/-- Fallback age-based statements (lines 458–465). -/
def fb_age_recs (age : Int) : List String :=
  if age > 25 then
    ["🔧 CRITICAL: Major overhaul required due to age. Consider retiring from primary operations.",
     "⏰ Plan for component replacement - engine, transmission, and braking systems need attention."]
  else if age > 20 then
    ["📋 Schedule major maintenance cycle. Age indicates increased component wear.",
     "🛡️ Use for lighter operations during peak maintenance periods."]
  else if age > 15 then
    ["🔍 Increase inspection frequency. Monitor for early signs of component degradation."]
  else []

/-- Fallback operating-hours statements (lines 468–472). -/
def fb_hours_recs (operating_hours : Int) : List String :=
  if operating_hours > 60000 then
    ["⏱️ HIGH USAGE: Operating hours exceed recommended limits. Schedule extended maintenance downtime.",
     "🔄 Consider rotating this locomotive to lighter duty cycles to extend service life."]
  else if operating_hours > 50000 then
    ["📊 High operating hours detected. Plan for major component inspection and replacement."]
  else []

/-- Fallback seasonal statements (lines 475–482). -/
def fb_season_recs (c : Clock) : List String :=
  if c.currentMonth == 12 || c.currentMonth == 1 || c.currentMonth == 2 then
    ["❄️ WINTER OPERATIONS: Ensure heating systems are functional. Check antifreeze levels and battery condition.",
     "🌨️ Avoid operations in severe weather conditions. Plan for reduced availability due to weather."]
  else if c.currentMonth == 6 || c.currentMonth == 7 || c.currentMonth == 8 then
    ["☀️ SUMMER OPERATIONS: Monitor cooling systems closely. Ensure adequate ventilation for crew comfort.",
     "🌡️ High temperature operations may reduce efficiency. Plan for increased maintenance intervals."]
  else []

/-- Fallback fuel-efficiency statements (lines 485–493), keyed on
`predictions.get('fuel_efficiency', 0)`. -/
def fb_fuel_recs (predicted_fuel_efficiency : Rat) : List String :=
  if predicted_fuel_efficiency < 60 then
    ["⛽ POOR FUEL EFFICIENCY: Check engine tuning, air filters, and fuel injection systems.",
     "🚫 Avoid this locomotive for fuel-sensitive operations. Consider engine overhaul."]
  else if predicted_fuel_efficiency < 75 then
    ["⛽ MODERATE FUEL EFFICIENCY: Schedule engine tune-up and filter replacement.",
     "📈 Monitor fuel consumption closely. Consider driver training for fuel-efficient operation."]
  else
    ["⛽ GOOD FUEL EFFICIENCY: Continue current maintenance practices to maintain efficiency."]

/-- Fallback fleet statements (lines 496–499). -/
def fb_fleet_recs (model : String) : List String :=
  if model == "DE10" then
    ["🏢 NRZ FLEET: Follow NRZ maintenance protocols. Ensure compliance with internal standards."]
  else if model == "DE11" then
    ["📋 HIRED FLEET: Review contractual maintenance obligations. Coordinate with vendor for major repairs."]
  else []

/-- The full fallback recommendation list (lines 444–503): risk, age, hours,
season, fuel and fleet segments in order, then the never-empty guard.  No
truncation is applied on this path. -/
def fallback_recommendations (c : Clock) (l : Locomotive)
    (preds : List (String × Rat)) : List String :=
  let recs := fb_risk_recs (get_risk_level c l)
    ++ fb_age_recs (l.age c)
    ++ fb_hours_recs l.operating_hours
    ++ fb_season_recs c
    ++ fb_fuel_recs (dictGet preds "fuel_efficiency" 0)
    ++ fb_fleet_recs l.model
  if recs.isEmpty then
    ["✅ Continue regular maintenance schedule and monitor performance indicators."]
  else recs

/-- The structured prediction result (the `timestamp` field of the source is
ambient wall-clock text and is left out of the embedding). -/
structure PredictionResult where
  prediction_type : String
  period_days : Int
  risk_score : Rat
  risk_level : String
  reliability_category : String
  predictions : List (String × Rat)
  recommendations : List String
  prediction_method : String

/-- `_fallback_prediction` (lines 415–515). -/
def fallback_prediction (c : Clock) (l : Locomotive)
    (prediction_type : String) (period_days : Int) : PredictionResult :=
  let preds := fallback_predictions c l prediction_type period_days
  { prediction_type := prediction_type
    period_days := period_days
    risk_score := calculate_risk_score c l
    risk_level := get_risk_level c l
    reliability_category := "Medium"
    predictions := preds
    recommendations := fallback_recommendations c l preds
    prediction_method := "Fallback Method" }

/-! ### ML path (`predict_performance`, lines 137–199) -/

/-- Per-call outcome of the opaque artifact bundle: whether the bundle
loaded, whether `_prepare_locomotive_features` produced features (the
encoders being the only failure point), and the raw regressor output with
the decoded reliability category, `none` modelling an exception raised
during scaling or inference. -/
structure MLEnv where
  models_loaded : Bool
  features_ok : Bool
  ml_outcome : Option (Rat × String)

/-- The ML risk-score rescaling and clamp (lines 156–165). -/
def rescale_risk (ml_risk_score : Rat) (age : Int) (operating_hours : Int) : Rat :=
  let risk_score :=
    if ml_risk_score < 10 then
      ml_risk_score * 8 + (age : Rat) * 1.5 + ((operating_hours : Rat) / 1000) * 0.3
    else
      ml_risk_score * 2 + (age : Rat) * 0.5
  max 5 (min 100 risk_score)

/-- The ML-path risk-level thresholds (lines 167–173). -/
def ml_risk_level (risk_score : Rat) : String :=
  if risk_score ≥ 70 then "High"
  else if risk_score ≥ 40 then "Medium"
  else "Low"

/-- `predict_performance`: dispatches to the fallback when the bundle is not
loaded, when feature preparation returns nothing, or when inference raises;
otherwise builds the ML-backed result. -/
def predict_performance (env : MLEnv) (c : Clock) (l : Locomotive)
    (prediction_type : String) (period_days : Int) : PredictionResult :=
  if env.models_loaded = false then
    fallback_prediction c l prediction_type period_days
  else if env.features_ok = false then
    fallback_prediction c l prediction_type period_days
  else
    match env.ml_outcome with
    | none => fallback_prediction c l prediction_type period_days
    | some (ml_risk_score, reliability_category) =>
      let risk_score := rescale_risk ml_risk_score (l.age c) l.operating_hours
      let risk_level := ml_risk_level risk_score
      { prediction_type := prediction_type
        period_days := period_days
        risk_score := risk_score
        risk_level := risk_level
        reliability_category := reliability_category
        predictions :=
          generate_specific_predictions c l prediction_type period_days risk_score
        recommendations :=
          generate_recommendations c l risk_score risk_level
            reliability_category prediction_type
        prediction_method := "ML Performance Model" }

/-! ### Bulk-prediction metric map (`routes/loco_predictions.py`, bulk_predict) -/

/-- The per-locomotive metric map of `bulk_predict` (lines 243–264 of the
route module). -/
def bulk_predictions (c : Clock) (l : Locomotive) (prediction_type : String)
    (prediction_period : Int) : List (String × Rat) :=
  let age := l.age c
  let hours := l.operating_hours
  (if prediction_type == "all" || prediction_type == "availability_days" then
    [("availability_days", ((max 200 (365 - age * 8) : Int) : Rat))]
   else [])
  ++ (if prediction_type == "all" || prediction_type == "distance_travelled" then
    [("distance_travelled",
      ((pyInt ((hours : Rat) * 45 * ((prediction_period : Rat) / 365)) : Int) : Rat))]
   else [])
  ++ (if prediction_type == "all" || prediction_type == "distance_per_day" then
    [("distance_per_day", round2 (120 - (age : Rat) * 2))]
   else [])
  ++ (if prediction_type == "all" || prediction_type == "total_failures" then
    [("total_failures", ((max 0 (pyInt ((age : Rat) * 1.5)) : Int) : Rat))]
   else [])
  ++ (if prediction_type == "all" || prediction_type == "reliability" then
    [("reliability", ((max 50 (95 - age * 3) : Int) : Rat))]
   else [])
  ++ (if prediction_type == "all" || prediction_type == "fuel_efficiency" then
    [("fuel_efficiency", ((max 60 (90 - age * 2) : Int) : Rat))]
   else [])

/-! ## Claims -/

/-- C3: for every locomotive snapshot, `calculate_risk_score` returns
`min(100, age_risk + usage_risk + maintenance_risk)` with
`age_risk = min(50, age*2)`, `usage_risk = min(30, (operating_hours/1000)*0.6)`,
and `maintenance_risk = min(20, days_since_maintenance*0.2)` when a
last-maintenance date exists and the fixed penalty 20 otherwise; and
`get_risk_level` maps that score to "High" when it is ≥70, "Medium" when it
is ≥40, and "Low" otherwise. -/
theorem calculate_risk_score_matches_spec (c : Clock) (l : Locomotive) :
    calculate_risk_score c l = risk_score_spec c l ∧
    get_risk_level c l = risk_level_spec c l :=
  ⟨rfl, rfl⟩

/-- C4 counterexample: a snapshot with age 0 and operating hours 0 but a
last-maintenance date 1000 days in the future makes `calculate_risk_score`
return −200, escaping [0,100], so the claim fails as stated. -/
theorem risk_score_bounds_counterexample :
    (Locomotive.age ⟨"DE10", 2025, 0, some 1000, "active", "NRZ"⟩ ⟨2025, 1, 0⟩ = 0) ∧
    (Locomotive.operating_hours ⟨"DE10", 2025, 0, some 1000, "active", "NRZ"⟩ = 0) ∧
    calculate_risk_score ⟨2025, 1, 0⟩ ⟨"DE10", 2025, 0, some 1000, "active", "NRZ"⟩ = -200 := by
  refine ⟨rfl, rfl, ?_⟩
  norm_num [calculate_risk_score, Locomotive.age, daysSince, min_def]

/-- C4 amended: for every snapshot with non-negative age, non-negative
operating hours, and a last-maintenance date not in the future, every risk
score the program computes (`calculate_risk_score`, and the ML-path rescaled
score after its clamp) lies in [0,100], and every reliability value the
program computes (`calculate_reliability`, the ML-synthesized reliability
prediction and the fallback reliability prediction) lies in [0,100]. -/
theorem risk_and_reliability_bounds (c : Clock) (l : Locomotive)
    (hage : 0 ≤ l.age c) (hhrs : 0 ≤ l.operating_hours)
    (hlm : ∀ d, l.last_maintenance = some d → d ≤ c.today) :
    (0 ≤ calculate_risk_score c l ∧ calculate_risk_score c l ≤ 100) ∧
    (∀ raw : Rat, 0 ≤ rescale_risk raw (l.age c) l.operating_hours ∧
      rescale_risk raw (l.age c) l.operating_hours ≤ 100) ∧
    (0 ≤ calculate_reliability c l ∧ calculate_reliability c l ≤ 100) ∧
    (∀ pd rs, 0 ≤ dictGet (generate_specific_predictions c l "reliability" pd rs) "reliability" 0 ∧
      dictGet (generate_specific_predictions c l "reliability" pd rs) "reliability" 0 ≤ 100) ∧
    (∀ pd, 0 ≤ dictGet (fallback_predictions c l "reliability" pd) "reliability" 0 ∧
      dictGet (fallback_predictions c l "reliability" pd) "reliability" 0 ≤ 100) := by
  have hA : (0 : Rat) ≤ ((l.age c : Int) : Rat) := by exact_mod_cast hage
  have hH : (0 : Rat) ≤ ((l.operating_hours : Int) : Rat) := by exact_mod_cast hhrs
  refine ⟨?_, ?_, ?_, ?_, ?_⟩
  · unfold calculate_risk_score
    rcases hm : l.last_maintenance with _ | d
    · simp only [daysSince, min_def]
      split_ifs <;> constructor <;> linarith
    · have hd : (0 : Rat) ≤ ((c.today - d : Int) : Rat) := by
        have := hlm d hm
        exact_mod_cast Int.sub_nonneg.mpr this
      simp only [daysSince, min_def]
      split_ifs <;> constructor <;> linarith
  · intro raw
    exact ⟨le_trans (by norm_num) (le_max_left _ _),
           max_le (by norm_num) (min_le_left _ _)⟩
  · exact ⟨le_max_left _ _, max_le (by norm_num) (min_le_left _ _)⟩
  · intro pd rs
    have hval : dictGet (generate_specific_predictions c l "reliability" pd rs) "reliability" 0
        = max 0 (min 100 (round2 (max 50 (95 - (l.age c : Rat) * 2.5) * (1 - rs / 150)))) := rfl
    rw [hval]
    exact ⟨le_max_left _ _, max_le (by norm_num) (min_le_left _ _)⟩
  · intro pd
    have hval : dictGet (fallback_predictions c l "reliability" pd) "reliability" 0
        = ((max 50 (95 - l.age c * 3) : Int) : Rat) := rfl
    rw [hval]
    constructor
    · have : (0 : Int) ≤ max 50 (95 - l.age c * 3) :=
        le_trans (by norm_num) (le_max_left _ _)
      exact_mod_cast this
    · have : max 50 (95 - l.age c * 3) ≤ (100 : Int) :=
        max_le (by norm_num) (by linarith)
      exact_mod_cast this

/-- Witness for the amended C4 at a concrete snapshot. -/
theorem risk_and_reliability_bounds_witness :
    (0 ≤ Locomotive.age ⟨"DE10", 2010, 20000, some 100, "active", "NRZ"⟩ ⟨2025, 6, 200⟩) ∧
    (0 ≤ Locomotive.operating_hours ⟨"DE10", 2010, 20000, some 100, "active", "NRZ"⟩) ∧
    (∀ d, Locomotive.last_maintenance ⟨"DE10", 2010, 20000, some 100, "active", "NRZ"⟩ = some d →
      d ≤ Clock.today ⟨2025, 6, 200⟩) ∧
    (0 ≤ calculate_risk_score ⟨2025, 6, 200⟩ ⟨"DE10", 2010, 20000, some 100, "active", "NRZ"⟩ ∧
     calculate_risk_score ⟨2025, 6, 200⟩ ⟨"DE10", 2010, 20000, some 100, "active", "NRZ"⟩ ≤ 100) := by
  have h := risk_and_reliability_bounds ⟨2025, 6, 200⟩
    ⟨"DE10", 2010, 20000, some 100, "active", "NRZ"⟩ (by decide) (by decide)
    (by intro d hd; cases hd; decide)
  exact ⟨by decide, by decide, by intro d hd; cases hd; decide, h.1⟩

/-- C5: with `operating_hours = 0`, every snapshot-dependent denominator in
the feature deriver is floored at 1 (hence nonzero, so no division-by-zero),
and the per-hour derived features are well-defined finite rationals:
`failure_rate` and `failure_rate_per_hour` collapse to `total_failures`, and
`usage_intensity` and `distance_per_hour` to 0. -/
theorem feature_derivation_no_division_by_zero (c : Clock) (l : Locomotive)
    (h : l.operating_hours = 0) :
    (failure_rate_denom l = 1 ∧ 1 ≤ usage_intensity_denom c l ∧ per_hour_denom l = 1 ∧
     failure_rate_denom l ≠ 0 ∧ usage_intensity_denom c l ≠ 0 ∧ per_hour_denom l ≠ 0) ∧
    (prepare_locomotive_features c l).failure_rate
      = (prepare_locomotive_features c l).total_failures ∧
    (prepare_locomotive_features c l).usage_intensity = 0 ∧
    (prepare_locomotive_features c l).failure_rate_per_hour
      = (prepare_locomotive_features c l).total_failures ∧
    (prepare_locomotive_features c l).distance_per_hour = 0 := by
  have hd1 : failure_rate_denom l = 1 := by
    simp [failure_rate_denom, h]
  have hd2 : 1 ≤ usage_intensity_denom c l := le_max_left _ _
  have hd3 : per_hour_denom l = 1 := by
    simp [per_hour_denom, h]
  refine ⟨⟨hd1, hd2, hd3, by rw [hd1]; norm_num, by positivity, by rw [hd3]; norm_num⟩,
    ?_, ?_, ?_, ?_⟩
  · simp only [prepare_locomotive_features, hd1, div_one]
  · simp [prepare_locomotive_features, h]
  · simp only [prepare_locomotive_features, hd3, div_one]
  · simp [prepare_locomotive_features, h]

lemma fb_risk_recs_len (rl : String) : (fb_risk_recs rl).length = 2 := by
  unfold fb_risk_recs; split_ifs <;> rfl

lemma fb_age_recs_len (a : Int) : (fb_age_recs a).length ≤ 2 := by
  unfold fb_age_recs; split_ifs <;> simp

lemma fb_hours_recs_len (h : Int) : (fb_hours_recs h).length ≤ 2 := by
  unfold fb_hours_recs; split_ifs <;> simp

lemma fb_season_recs_len (c : Clock) : (fb_season_recs c).length ≤ 2 := by
  unfold fb_season_recs; split_ifs <;> simp

lemma fb_fuel_recs_len (q : Rat) :
    1 ≤ (fb_fuel_recs q).length ∧ (fb_fuel_recs q).length ≤ 2 := by
  unfold fb_fuel_recs; split_ifs <;> simp

lemma fb_fleet_recs_len (m : String) : (fb_fleet_recs m).length ≤ 1 := by
  unfold fb_fleet_recs; split_ifs <;> simp

lemma take_six_length_bounds (xs : List String) (h : xs ≠ []) :
    1 ≤ (xs.take 6).length ∧ (xs.take 6).length ≤ 6 := by
  cases xs with
  | nil => exact absurd rfl h
  | cons a t =>
    simp only [List.length_take, List.length_cons]
    omega

/-- C1 amended: the ML-path recommendation list always has between 1 and 6
entries; the fallback-path recommendation list always has at least 1 entry
but is not truncated, and is only bounded by 11 (two statements each from
the risk, age, hours, season and fuel segments plus one fleet statement). -/
theorem recommendations_length_invariant (c : Clock) (l : Locomotive)
    (rs : Rat) (rl cat pt : String) (pd : Int) :
    (1 ≤ (generate_recommendations c l rs rl cat pt).length ∧
     (generate_recommendations c l rs rl cat pt).length ≤ 6) ∧
    (1 ≤ (fallback_prediction c l pt pd).recommendations.length ∧
     (fallback_prediction c l pt pd).recommendations.length ≤ 11) := by
  constructor
  · simp only [generate_recommendations]
    apply take_six_length_bounds
    split_ifs <;> simp
  · have hrec : (fallback_prediction c l pt pd).recommendations
        = fallback_recommendations c l (fallback_predictions c l pt pd) := rfl
    rw [hrec]
    have h1 := fb_risk_recs_len (get_risk_level c l)
    have h2 := fb_age_recs_len (l.age c)
    have h3 := fb_hours_recs_len l.operating_hours
    have h4 := fb_season_recs_len c
    have h5 := fb_fuel_recs_len
      (dictGet (fallback_predictions c l pt pd) "fuel_efficiency" 0)
    have h6 := fb_fleet_recs_len l.model
    simp only [fallback_recommendations]
    split_ifs with hE
    · simp
    · simp only [List.length_append]
      omega

/-- C1 counterexample: on the fallback path, a 30-year-old DE10 with 70000
operating hours, no maintenance record and a winter month yields 11
recommendations, exceeding the claimed cap of 6. -/
theorem recommendations_length_counterexample :
    6 < (fallback_prediction ⟨2025, 1, 20000⟩
      ⟨"DE10", 1995, 70000, none, "active", "NRZ"⟩ "reliability" 30).recommendations.length := by
  have hrl : get_risk_level ⟨2025, 1, 20000⟩
      ⟨"DE10", 1995, 70000, none, "active", "NRZ"⟩ = "High" := by
    norm_num [get_risk_level, calculate_risk_score, Locomotive.age, min_def]
  show 6 < (fallback_recommendations ⟨2025, 1, 20000⟩
    ⟨"DE10", 1995, 70000, none, "active", "NRZ"⟩
    (fallback_predictions ⟨2025, 1, 20000⟩
      ⟨"DE10", 1995, 70000, none, "active", "NRZ"⟩ "reliability" 30)).length
  unfold fallback_recommendations
  rw [hrl]
  decide

/-- C2: `predict_performance` never propagates a failure: when the bundle is
not loaded, feature preparation yields nothing, or inference raises, the call
returns exactly the fallback result, whose `prediction_method` is
"Fallback Method"; a successful model path returns a result of the same
shape whose `prediction_method` is "ML Performance Model". -/
theorem prediction_method_distinguishes (env : MLEnv) (c : Clock)
    (l : Locomotive) (pt : String) (pd : Int) :
    ((env.models_loaded = false ∨ env.features_ok = false ∨ env.ml_outcome = none) →
      predict_performance env c l pt pd = fallback_prediction c l pt pd ∧
      (predict_performance env c l pt pd).prediction_method = "Fallback Method") ∧
    (∀ raw cat, env.models_loaded = true → env.features_ok = true →
      env.ml_outcome = some (raw, cat) →
      (predict_performance env c l pt pd).prediction_method = "ML Performance Model") ∧
    (fallback_prediction c l pt pd).prediction_method = "Fallback Method" := by
  refine ⟨?_, ?_, rfl⟩
  · intro h
    unfold predict_performance
    split_ifs with h1 h2
    · exact ⟨rfl, rfl⟩
    · exact ⟨rfl, rfl⟩
    · rcases h with h | h | h
      · exact absurd h h1
      · exact absurd h h2
      · rw [h]
        exact ⟨rfl, rfl⟩
  · intro raw cat h1 h2 h3
    simp [predict_performance, h1, h2, h3]

/-- Witness for C2: a concrete failing bundle produces a fallback-tagged
result and a concrete successful bundle produces an ML-tagged result. -/
theorem prediction_method_distinguishes_witness :
    (MLEnv.models_loaded ⟨false, true, none⟩ = false ∨
     MLEnv.features_ok ⟨false, true, none⟩ = false ∨
     MLEnv.ml_outcome ⟨false, true, none⟩ = none) ∧
    (predict_performance ⟨false, true, none⟩ ⟨2025, 6, 200⟩
      ⟨"DE10", 2010, 20000, none, "active", "NRZ"⟩ "all" 30).prediction_method
      = "Fallback Method" ∧
    (predict_performance ⟨true, true, some (3, "Medium")⟩ ⟨2025, 6, 200⟩
      ⟨"DE10", 2010, 20000, none, "active", "NRZ"⟩ "all" 30).prediction_method
      = "ML Performance Model" := by
  refine ⟨Or.inl rfl, ?_, ?_⟩
  · exact ((prediction_method_distinguishes ⟨false, true, none⟩ ⟨2025, 6, 200⟩
      ⟨"DE10", 2010, 20000, none, "active", "NRZ"⟩ "all" 30).1 (Or.inl rfl)).2
  · exact (prediction_method_distinguishes ⟨true, true, some (3, "Medium")⟩ ⟨2025, 6, 200⟩
      ⟨"DE10", 2010, 20000, none, "active", "NRZ"⟩ "all" 30).2.1 3 "Medium" rfl rfl rfl

lemma mem_ite_singleton {α : Type} (p x : α) (c : Prop) [Decidable c] :
    p ∈ (if c then [x] else []) ↔ c ∧ p = x := by
  split_ifs with h <;> simp [h]

/-- C6: the synthesizer populates only the requested metric — for each of
the six named metrics the key list is exactly that metric on both the ML
and fallback paths, and for "all" it is all six; on the ML path every value
is ≥ 0, and the reliability and fuel-efficiency values are ≤ 100. -/
theorem specific_predictions_keys_and_clamps (c : Clock) (l : Locomotive)
    (pd : Int) (rs : Rat) (pt : String) :
    (pt ∈ ["availability_days", "distance_travelled", "distance_per_day",
           "total_failures", "reliability", "fuel_efficiency"] →
      keysOf (generate_specific_predictions c l pt pd rs) = [pt] ∧
      keysOf (fallback_predictions c l pt pd) = [pt]) ∧
    (pt = "all" →
      keysOf (generate_specific_predictions c l pt pd rs)
        = ["availability_days", "distance_travelled", "distance_per_day",
           "total_failures", "reliability", "fuel_efficiency"] ∧
      keysOf (fallback_predictions c l pt pd)
        = ["availability_days", "distance_travelled", "distance_per_day",
           "total_failures", "reliability", "fuel_efficiency"]) ∧
    (∀ p ∈ generate_specific_predictions c l pt pd rs, 0 ≤ p.2) ∧
    (∀ p ∈ generate_specific_predictions c l pt pd rs,
      p.1 = "reliability" ∨ p.1 = "fuel_efficiency" → p.2 ≤ 100) := by
  refine ⟨?_, ?_, ?_, ?_⟩
  · intro hpt
    fin_cases hpt
    · exact ⟨rfl, rfl⟩
    · exact ⟨rfl, rfl⟩
    · exact ⟨rfl, rfl⟩
    · exact ⟨rfl, rfl⟩
    · exact ⟨rfl, rfl⟩
    · exact ⟨rfl, rfl⟩
  · rintro rfl
    exact ⟨rfl, rfl⟩
  · intro p hp
    simp only [generate_specific_predictions, List.mem_append, mem_ite_singleton] at hp
    rcases hp with ((((⟨-, rfl⟩ | ⟨-, rfl⟩) | ⟨-, rfl⟩) | ⟨-, rfl⟩) | ⟨-, rfl⟩) | ⟨-, rfl⟩
    · exact Int.cast_nonneg.mpr (le_max_left 0 _)
    · exact Int.cast_nonneg.mpr (le_max_left 0 _)
    · exact le_max_left _ _
    · exact Int.cast_nonneg.mpr (le_max_left 0 _)
    · exact le_max_left _ _
    · exact le_max_left _ _
  · intro p hp hk
    simp only [generate_specific_predictions, List.mem_append, mem_ite_singleton] at hp
    rcases hp with ((((⟨-, rfl⟩ | ⟨-, rfl⟩) | ⟨-, rfl⟩) | ⟨-, rfl⟩) | ⟨-, rfl⟩) | ⟨-, rfl⟩
    · rcases hk with hk | hk <;> simp at hk
    · rcases hk with hk | hk <;> simp at hk
    · rcases hk with hk | hk <;> simp at hk
    · rcases hk with hk | hk <;> simp at hk
    · exact max_le (by norm_num) (min_le_left _ _)
    · exact max_le (by norm_num) (min_le_left _ _)

/-- Witness for C6 at a concrete prediction type. -/
theorem specific_predictions_keys_and_clamps_witness :
    ("reliability" ∈ ["availability_days", "distance_travelled", "distance_per_day",
        "total_failures", "reliability", "fuel_efficiency"]) ∧
    keysOf (generate_specific_predictions ⟨2025, 6, 200⟩
      ⟨"DE10", 2010, 20000, none, "active", "NRZ"⟩ "reliability" 30 50) = ["reliability"] ∧
    keysOf (fallback_predictions ⟨2025, 6, 200⟩
      ⟨"DE10", 2010, 20000, none, "active", "NRZ"⟩ "reliability" 30) = ["reliability"] := by
  have h := (specific_predictions_keys_and_clamps ⟨2025, 6, 200⟩
    ⟨"DE10", 2010, 20000, none, "active", "NRZ"⟩ 30 50 "reliability").1 (by decide)
  exact ⟨by decide, h.1, h.2⟩

/-- C8: for a prediction type outside the seven documented values, the ML
path returns normally: the predictions map is empty and the recommendation
list is exactly the basic risk-level statement plus the generic
continue-monitoring statement — the engine performs no validation. -/
theorem unknown_prediction_type_not_rejected (env : MLEnv) (c : Clock)
    (l : Locomotive) (pt : String) (pd : Int) (raw : Rat) (cat : String)
    (hpt : pt ∉ ["all", "availability_days", "distance_travelled",
      "distance_per_day", "total_failures", "reliability", "fuel_efficiency"])
    (h1 : env.models_loaded = true) (h2 : env.features_ok = true)
    (h3 : env.ml_outcome = some (raw, cat)) :
    (predict_performance env c l pt pd).predictions = [] ∧
    (predict_performance env c l pt pd).recommendations
      = [ml_basic_rec (ml_risk_level (rescale_risk raw (l.age c) l.operating_hours)),
         "✅ Continue regular maintenance and monitoring"] ∧
    (predict_performance env c l pt pd).recommendations.length = 2 := by
  simp only [List.mem_cons, List.not_mem_nil, or_false, not_or] at hpt
  obtain ⟨n1, n2, n3, n4, n5, n6, n7⟩ := hpt
  have b1 := beq_eq_false_iff_ne.mpr n1
  have b2 := beq_eq_false_iff_ne.mpr n2
  have b3 := beq_eq_false_iff_ne.mpr n3
  have b4 := beq_eq_false_iff_ne.mpr n4
  have b5 := beq_eq_false_iff_ne.mpr n5
  have b6 := beq_eq_false_iff_ne.mpr n6
  have b7 := beq_eq_false_iff_ne.mpr n7
  refine ⟨?_, ?_, ?_⟩
  · simp [predict_performance, h1, h2, h3, generate_specific_predictions,
      b1, b2, b3, b4, b5, b6, b7]
  · simp [predict_performance, h1, h2, h3, generate_recommendations,
      b1, b2, b3, b4, b5, b6, b7]
  · simp [predict_performance, h1, h2, h3, generate_recommendations,
      b1, b2, b3, b4, b5, b6, b7]

/-- Witness for C8 at the undocumented prediction type "bogus". -/
theorem unknown_prediction_type_not_rejected_witness :
    ("bogus" ∉ ["all", "availability_days", "distance_travelled",
      "distance_per_day", "total_failures", "reliability", "fuel_efficiency"]) ∧
    (predict_performance ⟨true, true, some (3, "Medium")⟩ ⟨2025, 6, 200⟩
      ⟨"DE10", 2010, 20000, none, "active", "NRZ"⟩ "bogus" 30).predictions = [] ∧
    (predict_performance ⟨true, true, some (3, "Medium")⟩ ⟨2025, 6, 200⟩
      ⟨"DE10", 2010, 20000, none, "active", "NRZ"⟩ "bogus" 30).recommendations.length = 2 := by
  have h := unknown_prediction_type_not_rejected ⟨true, true, some (3, "Medium")⟩
    ⟨2025, 6, 200⟩ ⟨"DE10", 2010, 20000, none, "active", "NRZ"⟩ "bogus" 30 3 "Medium"
    (by decide) rfl rfl rfl
  exact ⟨by decide, h.1, h.2.2⟩

lemma dictGet_not_mem (m : List (String × Rat)) (k : String) (d : Rat)
    (h : k ∉ keysOf m) : dictGet m k d = d := by
  induction m with
  | nil => rfl
  | cons p t ih =>
    simp only [keysOf, List.map_cons, List.mem_cons, not_or] at h
    have hbeq : (p.1 == k) = false := beq_eq_false_iff_ne.mpr (Ne.symm h.1)
    simp only [dictGet, List.find?_cons, hbeq]
    exact ih (by simpa [keysOf] using h.2)

lemma mem_guard {α : Type} (xs : List α) (x d : α) (h : x ∈ xs) :
    x ∈ (if xs.isEmpty then [d] else xs) := by
  cases xs with
  | nil => simp at h
  | cons a t => simpa [List.isEmpty] using h

/-- C9: on the fallback path with a prediction type other than "all" and
"fuel_efficiency", the predictions map has no fuel_efficiency key, the
lookup defaults to 0 < 60, and the poor-fuel-efficiency statements are
always produced, regardless of the locomotive. -/
theorem fallback_always_reports_poor_fuel (c : Clock) (l : Locomotive)
    (pt : String) (pd : Int) (h1 : pt ≠ "all") (h2 : pt ≠ "fuel_efficiency") :
    "fuel_efficiency" ∉ keysOf (fallback_predictions c l pt pd) ∧
    dictGet (fallback_predictions c l pt pd) "fuel_efficiency" 0 = 0 ∧
    "⛽ POOR FUEL EFFICIENCY: Check engine tuning, air filters, and fuel injection systems."
      ∈ (fallback_prediction c l pt pd).recommendations ∧
    "🚫 Avoid this locomotive for fuel-sensitive operations. Consider engine overhaul."
      ∈ (fallback_prediction c l pt pd).recommendations := by
  have b1 := beq_eq_false_iff_ne.mpr h1
  have b2 := beq_eq_false_iff_ne.mpr h2
  have hkeys : "fuel_efficiency" ∉ keysOf (fallback_predictions c l pt pd) := by
    intro hmem
    simp only [fallback_predictions, keysOf, List.map_append, List.mem_append] at hmem
    rcases hmem with ((((hm | hm) | hm) | hm) | hm) | hm <;>
    · rw [List.mem_map] at hm
      obtain ⟨q, hq, hfst⟩ := hm
      simp only [mem_ite_singleton] at hq
      obtain ⟨hc, rfl⟩ := hq
      first
      | (rw [b1, b2] at hc; simp at hc)
      | simp at hfst
  have hget : dictGet (fallback_predictions c l pt pd) "fuel_efficiency" 0 = 0 :=
    dictGet_not_mem _ _ _ hkeys
  have hfuel : fb_fuel_recs
      (dictGet (fallback_predictions c l pt pd) "fuel_efficiency" 0)
      = ["⛽ POOR FUEL EFFICIENCY: Check engine tuning, air filters, and fuel injection systems.",
         "🚫 Avoid this locomotive for fuel-sensitive operations. Consider engine overhaul."] := by
    rw [hget]
    norm_num [fb_fuel_recs]
  have hrec : (fallback_prediction c l pt pd).recommendations
      = fallback_recommendations c l (fallback_predictions c l pt pd) := rfl
  refine ⟨hkeys, hget, ?_, ?_⟩ <;>
  · rw [hrec]
    simp only [fallback_recommendations]
    apply mem_guard
    rw [hfuel]
    simp

/-- Witness for C9 at a concrete snapshot and prediction type. -/
theorem fallback_always_reports_poor_fuel_witness :
    ("reliability" ≠ "all") ∧ ("reliability" ≠ "fuel_efficiency") ∧
    "⛽ POOR FUEL EFFICIENCY: Check engine tuning, air filters, and fuel injection systems."
      ∈ (fallback_prediction ⟨2025, 6, 200⟩ ⟨"DE10", 2010, 20000, none, "active", "NRZ"⟩
          "reliability" 30).recommendations := by
  have h := fallback_always_reports_poor_fuel ⟨2025, 6, 200⟩
    ⟨"DE10", 2010, 20000, none, "active", "NRZ"⟩ "reliability" 30
    (by decide) (by decide)
  exact ⟨by decide, by decide, h.2.2.1⟩

/-- C7: a locomotive 30 years old this year, with 60000 operating hours and
no maintenance record, is rated "High" risk, and its maintenance
recommendations include the engine-overhaul item and the overdue routine
maintenance item produced by the missing record; the fallback path likewise
emits its major-overhaul statement. -/
theorem high_risk_scenario_example (c : Clock) :
    get_risk_level c ⟨"DE10", c.currentYear - 30, 60000, none, "active", "NRZ"⟩ = "High" ∧
    (⟨"Engine Overhaul", "High", "Consider major engine overhaul due to age"⟩ : MaintItem)
      ∈ get_maintenance_recommendations c
          ⟨"DE10", c.currentYear - 30, 60000, none, "active", "NRZ"⟩ ∧
    (⟨"Routine Maintenance", "High", "Overdue for routine maintenance"⟩ : MaintItem)
      ∈ get_maintenance_recommendations c
          ⟨"DE10", c.currentYear - 30, 60000, none, "active", "NRZ"⟩ ∧
    ∀ pt pd,
      "🔧 CRITICAL: Major overhaul required due to age. Consider retiring from primary operations."
        ∈ (fallback_prediction c ⟨"DE10", c.currentYear - 30, 60000, none, "active", "NRZ"⟩
            pt pd).recommendations := by
  have hage : (⟨"DE10", c.currentYear - 30, 60000, none, "active", "NRZ"⟩ : Locomotive).age c
      = 30 := by
    simp only [Locomotive.age]
    omega
  have hrs : calculate_risk_score c
      ⟨"DE10", c.currentYear - 30, 60000, none, "active", "NRZ"⟩ = 100 := by
    simp only [calculate_risk_score, hage]
    norm_num [min_def]
  have hlevel : get_risk_level c
      ⟨"DE10", c.currentYear - 30, 60000, none, "active", "NRZ"⟩ = "High" := by
    simp only [get_risk_level, hrs]
    norm_num
  have hmaint : get_maintenance_recommendations c
      ⟨"DE10", c.currentYear - 30, 60000, none, "active", "NRZ"⟩
      = [⟨"Engine Overhaul", "High", "Consider major engine overhaul due to age"⟩,
         ⟨"Transmission Service", "High", "Transmission requires major service"⟩,
         ⟨"Routine Maintenance", "High", "Overdue for routine maintenance"⟩,
         ⟨"Comprehensive Inspection", "High", "Full system inspection recommended"⟩] := by
    simp only [get_maintenance_recommendations, hage, hrs]
    norm_num
  refine ⟨hlevel, by rw [hmaint]; simp, by rw [hmaint]; simp, ?_⟩
  intro pt pd
  have hrec : (fallback_prediction c
      ⟨"DE10", c.currentYear - 30, 60000, none, "active", "NRZ"⟩ pt pd).recommendations
      = fallback_recommendations c
          ⟨"DE10", c.currentYear - 30, 60000, none, "active", "NRZ"⟩
          (fallback_predictions c
            ⟨"DE10", c.currentYear - 30, 60000, none, "active", "NRZ"⟩ pt pd) := rfl
  have hageRecs : fb_age_recs
      ((⟨"DE10", c.currentYear - 30, 60000, none, "active", "NRZ"⟩ : Locomotive).age c)
      = ["🔧 CRITICAL: Major overhaul required due to age. Consider retiring from primary operations.",
         "⏰ Plan for component replacement - engine, transmission, and braking systems need attention."] := by
    rw [hage]
    norm_num [fb_age_recs]
  rw [hrec]
  simp only [fallback_recommendations]
  apply mem_guard
  rw [hageRecs]
  simp

lemma pyRound_intCast (n : Int) : pyRound ((n : Int) : Rat) = n := by
  unfold pyRound
  rw [Int.floor_intCast]
  norm_num

lemma round2_intCast (n : Int) : round2 ((n : Int) : Rat) = (n : Rat) := by
  unfold round2
  have h : ((n : Rat) * 100) = (((n * 100 : Int)) : Rat) := by push_cast; ring
  rw [h, pyRound_intCast]
  push_cast
  field_simp

/-- C10: the fallback `distance_per_day` metric `round(100 - age*2, 2)` has
no lower clamp and is negative for every snapshot older than 50 years; the
bulk-prediction copy `round(120 - age*2, 2)` is negative beyond 60 years;
the ML synthesizer, by contrast, clamps this metric to ≥ 0. -/
theorem distance_per_day_negative_for_old (c : Clock) (l : Locomotive) (pd : Int) :
    (50 < l.age c →
      dictGet (fallback_predictions c l "distance_per_day" pd) "distance_per_day" 0 < 0) ∧
    (60 < l.age c →
      dictGet (bulk_predictions c l "distance_per_day" pd) "distance_per_day" 0 < 0) ∧
    (∀ rs, 0 ≤ dictGet (generate_specific_predictions c l "distance_per_day" pd rs)
      "distance_per_day" 0) := by
  have e1 : dictGet (fallback_predictions c l "distance_per_day" pd) "distance_per_day" 0
      = round2 (100 - (l.age c : Rat) * 2) := rfl
  have e2 : dictGet (bulk_predictions c l "distance_per_day" pd) "distance_per_day" 0
      = round2 (120 - (l.age c : Rat) * 2) := rfl
  have e3 : ∀ rs : Rat,
      dictGet (generate_specific_predictions c l "distance_per_day" pd rs) "distance_per_day" 0
      = max 0 (round2 (120 * (1 - rs / 200))) := fun rs => rfl
  refine ⟨?_, ?_, ?_⟩
  · intro h
    rw [e1]
    have hcast : (100 - (l.age c : Rat) * 2) = ((100 - l.age c * 2 : Int) : Rat) := by
      push_cast
      ring
    rw [hcast, round2_intCast]
    have hneg : (100 - l.age c * 2 : Int) < 0 := by omega
    exact_mod_cast hneg
  · intro h
    rw [e2]
    have hcast : (120 - (l.age c : Rat) * 2) = ((120 - l.age c * 2 : Int) : Rat) := by
      push_cast
      ring
    rw [hcast, round2_intCast]
    have hneg : (120 - l.age c * 2 : Int) < 0 := by omega
    exact_mod_cast hneg
  · intro rs
    rw [e3]
    exact le_max_left _ _

/-- Witness for C10 at a 61-year-old snapshot. -/
theorem distance_per_day_negative_for_old_witness :
    (50 < Locomotive.age ⟨"DE10", 1964, 0, none, "active", "NRZ"⟩ ⟨2025, 1, 0⟩) ∧
    (60 < Locomotive.age ⟨"DE10", 1964, 0, none, "active", "NRZ"⟩ ⟨2025, 1, 0⟩) ∧
    dictGet (fallback_predictions ⟨2025, 1, 0⟩ ⟨"DE10", 1964, 0, none, "active", "NRZ"⟩
      "distance_per_day" 30) "distance_per_day" 0 < 0 ∧
    dictGet (bulk_predictions ⟨2025, 1, 0⟩ ⟨"DE10", 1964, 0, none, "active", "NRZ"⟩
      "distance_per_day" 30) "distance_per_day" 0 < 0 := by
  have h := distance_per_day_negative_for_old ⟨2025, 1, 0⟩
    ⟨"DE10", 1964, 0, none, "active", "NRZ"⟩ 30
  exact ⟨by decide, by decide, h.1 (by decide), h.2.1 (by decide)⟩

/-- Witness for C5 at a concrete zero-hours snapshot. -/
theorem feature_derivation_no_division_by_zero_witness :
    (Locomotive.operating_hours ⟨"DE10", 2015, 0, none, "active", "NRZ"⟩ = 0) ∧
    failure_rate_denom ⟨"DE10", 2015, 0, none, "active", "NRZ"⟩ = 1 ∧
    (prepare_locomotive_features ⟨2025, 6, 200⟩ ⟨"DE10", 2015, 0, none, "active", "NRZ"⟩).usage_intensity = 0 := by
  have h := feature_derivation_no_division_by_zero ⟨2025, 6, 200⟩
    ⟨"DE10", 2015, 0, none, "active", "NRZ"⟩ rfl
  exact ⟨rfl, h.1.1, h.2.2.1⟩

end LPPS
